import Mathlib

/-!
Shallow embedding of `src/model/elements/base_element.py` (class `BaseElement`).

The selenium driver is the external boundary; following the spec it is modelled
as an opaque collaborator: a `Driver` record holding the current document
(`dom`, mapping a locator/selector pair to the ordered list of matching nodes),
the current page URL, and the condition-wait primitives used by
`WebDriverWait(...).until(...)`.  Python exceptions become an `Err` inductive
and fallible methods return `Except Err`.
-/

/-- Exception taxonomy.  `noSuchElement`, `timeoutException` and
`elementClickIntercepted` are the selenium exceptions imported by the module;
`indexError`, `keyError` and `valueError` are the Python builtins raised by
list indexing and `str.format`; `elementNotFound` and `elementNotClickable`
are the repository's own errors (from `model.errors.element`), carrying a
descriptor string, the current page URL and optional free-form context. -/
inductive Err where
  | noSuchElement : Err
  | timeoutException : Err
  | elementClickIntercepted : Err
  | indexError : Err
  | keyError : Err
  | valueError : Err
  | elementNotFound : String → String → List String → Err
  | elementNotClickable : String → String → List String → Err
deriving Repr, DecidableEq

/-- Modelled from the spec: the errors module `model.errors.element` is not in
the source tree, only its import and raise sites are.  The spec states that the
"Now"-suffixed predicates "swallow not-found into false", which requires the
`except NoSuchElementException` handlers in `is_present_now`/`is_visible_now`
to catch the `ElementNotFoundError` raised by the `element` property, i.e.
`ElementNotFoundError` subclasses `NoSuchElementException`.  This predicate
decides which errors an `except NoSuchElementException` clause catches. -/
def isNoSuchElementExc : Err → Bool
  | Err.noSuchElement => true
  | Err.elementNotFound _ _ _ => true
  | _ => false

/-- A live DOM node handle (selenium `WebElement`).  `clickIntercepted` records
whether a click on this node is obstructed, in which case `click()` raises
`ElementClickInterceptedException`. -/
structure WebElem where
  eid : Nat
  displayed : Bool
  enabled : Bool
  text : String
  attrs : List (String × String)
  clickIntercepted : Bool
deriving Repr, DecidableEq

/-- Node-level `click()`: raises `ElementClickInterceptedException` when the
click target is obstructed. -/
def WebElem.click (w : WebElem) : Except Err Unit :=
  if w.clickIntercepted then Except.error Err.elementClickIntercepted
  else Except.ok ()

/-- Node-level `get_attribute(name)`: the attribute value, or `None`. -/
def WebElem.get_attribute (w : WebElem) (name : String) : Option String :=
  (w.attrs.find? (fun p => p.1 == name)).map Prod.snd

/-- The external automation driver.  `dom` gives, per locator strategy and
selector, the ordered sequence of matching live nodes in the current document.
`clickableWithin loc sel t` (resp. `visibleWithin`) says whether the condition
`EC.element_to_be_clickable` (resp. `EC.visibility_of_element_located`) for
`(loc, sel)` comes to hold within `t` seconds of polling. -/
structure Driver where
  dom : String → String → List WebElem
  currentUrl : String
  clickableWithin : String → String → Nat → Bool
  visibleWithin : String → String → Nat → Bool

/-- `driver.find_elements(locator, selector)`: ordered, possibly empty. -/
def Driver.find_elements (d : Driver) (loc sel : String) : List WebElem :=
  d.dom loc sel

/-- `driver.find_element(locator, selector)`: first matching node, or raises
`NoSuchElementException` when no node matches. -/
def Driver.find_element (d : Driver) (loc sel : String) : Except Err WebElem :=
  match d.dom loc sel with
  | [] => Except.error Err.noSuchElement
  | w :: _ => Except.ok w

/-- `WebDriverWait(driver, timeout).until(condition)`: returns once the
condition holds within the timeout, raises `TimeoutException` otherwise. -/
def webDriverWaitUntil (holdsWithin : Nat → Bool) (timeout : Nat) :
    Except Err Unit :=
  if holdsWithin timeout then Except.ok () else Except.error Err.timeoutException

/-- `BASIC_TIMEOUT = 5` (base_element.py line 18). -/
def BASIC_TIMEOUT : Nat := 5

/-- The `(selector, locator)` pair bound by `BaseElement.__init__`.  The driver
is externally owned and is passed to each method separately, which also makes
the transient selector mutation of `format` explicit state passing. -/
structure BaseElement where
  locator : String
  selector : String
deriving Repr, DecidableEq

/-- `BaseElement.__repr__`: the f-string `f'\x7bself.selector=\x7d'`, which
renders as `self.selector=` followed by the Python repr of the selector
(the selector in single quotes; selectors containing quote or escape
characters would be escaped further, which this model does not reproduce). -/
def pyRepr (e : BaseElement) : String :=
  "self.selector=\x27" ++ e.selector ++ "\x27"

/-- Python `x or ""` on an optional string argument. -/
def orEmpty : Option String → String
  | none => ""
  | some s => s

/-- The two brace characters of a Python format template. -/
def braceOpen : Char := Char.ofNat 123

def braceClose : Char := Char.ofNat 125

/-- Keyword-argument lookup for `str.format`. -/
def findKw (kwargs : List (String × String)) (k : String) : Option String :=
  match kwargs with
  | [] => none
  | (k2, v) :: rest => if k2 = k then some v else findKw rest k

/-- Substitution of one replacement field of a Python format string: an empty
field takes the next auto-numbered positional argument (raising `IndexError`
when exhausted), a numeric field takes that positional argument, and any other
field name is looked up in the keyword arguments (raising `KeyError` when
absent).  Returns the substituted text and the updated auto-number counter. -/
def substField (field : List Char) (args : List String) (auto : Nat)
    (kwargs : List (String × String)) : Except Err (String × Nat) :=
  if field = [] then
    match args.get? auto with
    | some v => Except.ok (v, auto + 1)
    | none => Except.error Err.indexError
  else if field.all Char.isDigit then
    match (String.mk field).toNat? with
    | some i =>
      match args.get? i with
      | some v => Except.ok (v, auto)
      | none => Except.error Err.indexError
    | none => Except.error Err.valueError
  else
    match findKw kwargs (String.mk field) with
    | some v => Except.ok (v, auto)
    | none => Except.error Err.keyError

/-- Scanner for Python `str.format` over the template's characters: doubled
braces are literals, a replacement field runs to the closing brace, an
unmatched brace raises `ValueError`.  The fuel argument is the template length
(each step consumes at least one character), making the recursion structural;
exhausted fuel cannot occur on entry from `pyFormat` but is mapped to
`ValueError` for totality. -/
def formatGo (fuel : Nat) (cs : List Char) (args : List String) (auto : Nat)
    (kwargs : List (String × String)) : Except Err (List Char) :=
  match fuel, cs with
  | _, [] => Except.ok []
  | 0, _ :: _ => Except.error Err.valueError
  | fuel + 1, c :: rest =>
    if c = braceOpen then
      match rest with
      | [] => Except.error Err.valueError
      | c2 :: rest2 =>
        if c2 = braceOpen then
          match formatGo fuel rest2 args auto kwargs with
          | Except.ok out => Except.ok (braceOpen :: out)
          | Except.error er => Except.error er
        else
          let field := rest.takeWhile (fun ch => ch != braceClose)
          if field.length = rest.length then Except.error Err.valueError
          else
            match substField field args auto kwargs with
            | Except.error er => Except.error er
            | Except.ok (v, auto2) =>
              match formatGo fuel (rest.drop (field.length + 1)) args auto2 kwargs with
              | Except.ok out => Except.ok (v.data ++ out)
              | Except.error er => Except.error er
    else if c = braceClose then
      match rest with
      | [] => Except.error Err.valueError
      | c2 :: rest2 =>
        if c2 = braceClose then
          match formatGo fuel rest2 args auto kwargs with
          | Except.ok out => Except.ok (braceClose :: out)
          | Except.error er => Except.error er
        else Except.error Err.valueError
    else
      match formatGo fuel rest args auto kwargs with
      | Except.ok out => Except.ok (c :: out)
      | Except.error er => Except.error er

/-- Python `template.format(*args, **kwargs)` restricted to plain replacement
fields (no conversion or format-spec suffixes), which is all the repository
uses. -/
def pyFormat (template : String) (args : List String)
    (kwargs : List (String × String)) : Except Err String :=
  match formatGo template.length template.data args 0 kwargs with
  | Except.ok out => Except.ok (String.mk out)
  | Except.error er => Except.error er

/-- The argument of `__getitem__`: a Python `int` or a `slice` object. -/
inductive IndexArg where
  | int : Int → IndexArg
  | slice : Option Int → Option Int → Option Int → IndexArg
deriving Repr, DecidableEq

/-- Python repr of an optional slice bound. -/
def optIntRepr : Option Int → String
  | none => "None"
  | some i => toString i

/-- Python repr of the index, as interpolated by `f'\x7bindex=\x7d'`. -/
def indexRepr : IndexArg → String
  | IndexArg.int i => toString i
  | IndexArg.slice a b c =>
    "slice(" ++ optIntRepr a ++ ", " ++ optIntRepr b ++ ", " ++ optIntRepr c ++ ")"

/-- Python `lst[i]` for an integer `i`: a negative index counts from the end;
out of range raises `IndexError`. -/
def pyListGet {α : Type} (lst : List α) (i : Int) : Except Err α :=
  let n : Int := Int.ofNat lst.length
  let j : Int := if i < 0 then i + n else i
  if 0 ≤ j ∧ j < n then
    match lst.get? j.toNat with
    | some x => Except.ok x
    | none => Except.error Err.indexError
  else Except.error Err.indexError

/-- CPython `slice.indices(n)`: resolves the optional start/stop/step of a
slice against a list length, clamping to valid bounds; a zero step raises
`ValueError`. -/
def pySliceIndices (n : Nat) (start stop step : Option Int) :
    Except Err (Int × Int × Int) :=
  let stepv : Int := step.getD 1
  if stepv = 0 then Except.error Err.valueError
  else
    let nI : Int := Int.ofNat n
    let lower : Int := if stepv > 0 then 0 else -1
    let upper : Int := if stepv > 0 then nI else nI - 1
    let startv : Int :=
      match start with
      | none => if stepv > 0 then lower else upper
      | some s => if s < 0 then max (s + nI) lower else min s upper
    let stopv : Int :=
      match stop with
      | none => if stepv > 0 then upper else lower
      | some s => if s < 0 then max (s + nI) lower else min s upper
    Except.ok (startv, stopv, stepv)

/-- Number of indices of a resolved slice. -/
def sliceCount (startv stopv stepv : Int) : Nat :=
  if stepv > 0 then
    if stopv > startv then ((stopv - startv - 1) / stepv + 1).toNat else 0
  else
    if startv > stopv then ((startv - stopv - 1) / (-stepv) + 1).toNat else 0

/-- Python `lst[a:b:c]`: out-of-range slices are clamped and yield a possibly
empty list; no `IndexError` is ever raised. -/
def pyListSlice {α : Type} (lst : List α) (start stop step : Option Int) :
    Except Err (List α) :=
  match pySliceIndices lst.length start stop step with
  | Except.error er => Except.error er
  | Except.ok (a, b, st) =>
    Except.ok ((List.range (sliceCount a b st)).filterMap
      (fun k => lst.get? (a + Int.ofNat k * st).toNat))

/-- Result of `__getitem__`: a single `WebElement` for an int index, a list
for a slice. -/
inductive GotItem where
  | one : WebElem → GotItem
  | many : List WebElem → GotItem
deriving Repr, DecidableEq

/-- Python subscription `lst[index]` on a list of nodes. -/
def pyGetItem (lst : List WebElem) : IndexArg → Except Err GotItem
  | IndexArg.int i =>
    match pyListGet lst i with
    | Except.ok w => Except.ok (GotItem.one w)
    | Except.error er => Except.error er
  | IndexArg.slice a b c =>
    match pyListSlice lst a b c with
    | Except.ok ws => Except.ok (GotItem.many ws)
    | Except.error er => Except.error er

/-- `BaseElement.elements` (property): `driver.find_elements(locator, selector)`. -/
def BaseElement.elements (e : BaseElement) (d : Driver) : List WebElem :=
  d.find_elements e.locator e.selector

/-- `BaseElement.element` (property): `driver.find_element(locator, selector)`,
re-raising `NoSuchElementException` as `ElementNotFoundError` with the
descriptor string and current page URL. -/
def BaseElement.element (e : BaseElement) (d : Driver) : Except Err WebElem :=
  match d.find_element e.locator e.selector with
  | Except.ok w => Except.ok w
  | Except.error er =>
    if isNoSuchElementExc er then
      Except.error (Err.elementNotFound (pyRepr e) d.currentUrl [])
    else Except.error er

/-- `BaseElement.__len__`: `len(self.elements)`. -/
def BaseElement.len (e : BaseElement) (d : Driver) : Nat :=
  (BaseElement.elements e d).length

/-- `BaseElement.__iter__`: `iter(self.elements)`. -/
def BaseElement.iter (e : BaseElement) (d : Driver) : List WebElem :=
  BaseElement.elements e d

/-- `BaseElement.__getitem__`: `self.elements[index]`, re-raising `IndexError`
as `ElementNotFoundError` annotated with the requested index.  Other errors
(such as the `ValueError` of a zero slice step) propagate. -/
def BaseElement.getitem (e : BaseElement) (d : Driver) (index : IndexArg) :
    Except Err GotItem :=
  match pyGetItem (BaseElement.elements e d) index with
  | Except.ok r => Except.ok r
  | Except.error Err.indexError =>
    Except.error (Err.elementNotFound (pyRepr e) d.currentUrl
      [ "Element with index=" ++ indexRepr index ++ " is not exist." ])
  | Except.error er => Except.error er

/-- `BaseElement.is_enabled`: `self.element.is_enabled()`. -/
def BaseElement.is_enabled (e : BaseElement) (d : Driver) : Except Err Bool :=
  match BaseElement.element e d with
  | Except.ok w => Except.ok w.enabled
  | Except.error er => Except.error er

/-- `BaseElement.click`: resolve one node and click it, re-raising
`ElementClickInterceptedException` as `ElementNotClickableError` with the
descriptor string and current page URL.  The `try` also covers the `element`
resolution, whose `ElementNotFoundError` is not intercepted and propagates. -/
def BaseElement.click (e : BaseElement) (d : Driver) : Except Err Unit :=
  match
    (match BaseElement.element e d with
     | Except.ok w => WebElem.click w
     | Except.error er => Except.error er) with
  | Except.error Err.elementClickIntercepted =>
    Except.error (Err.elementNotClickable (pyRepr e) d.currentUrl [])
  | Except.error er => Except.error er
  | Except.ok u => Except.ok u

/-- `BaseElement.format` (a `@contextmanager` generator): saves the selector,
substitutes the placeholders, runs the scope body with the mutated selector
active, and restores the original selector in a `finally` on every exit path —
after a normal return, after an exception in the body, and after a failure of
the substitution itself (in which case the body never runs).  The body is
explicit state passing: it receives the element with the formatted selector
and returns its result together with the (possibly mutated) element state. -/
def BaseElement.format {α : Type} (e : BaseElement) (args : List String)
    (kwargs : List (String × String))
    (body : BaseElement → Except Err α × BaseElement) :
    Except Err α × BaseElement :=
  let original_selector := e.selector
  match pyFormat original_selector args kwargs with
  | Except.error er => (Except.error er, { e with selector := original_selector })
  | Except.ok s =>
    let r := body { e with selector := s }
    (r.1, { r.2 with selector := original_selector })

/-- `BaseElement.is_clickable`: wait until `EC.element_to_be_clickable`,
returning `False` on `TimeoutException` and `True` otherwise. -/
def BaseElement.is_clickable (e : BaseElement) (d : Driver) (timeout : Nat) :
    Except Err Bool :=
  match webDriverWaitUntil (d.clickableWithin e.locator e.selector) timeout with
  | Except.error Err.timeoutException => Except.ok false
  | Except.error er => Except.error er
  | Except.ok _ => Except.ok true

/-- `BaseElement.is_visible`: wait until `EC.visibility_of_element_located`,
returning `False` on `TimeoutException` and `True` otherwise. -/
def BaseElement.is_visible (e : BaseElement) (d : Driver) (timeout : Nat) :
    Except Err Bool :=
  match webDriverWaitUntil (d.visibleWithin e.locator e.selector) timeout with
  | Except.error Err.timeoutException => Except.ok false
  | Except.error er => Except.error er
  | Except.ok _ => Except.ok true

/-- `BaseElement.is_present_now`: immediate check, swallowing
`NoSuchElementException` into `False`. -/
def BaseElement.is_present_now (e : BaseElement) (d : Driver) : Except Err Bool :=
  match BaseElement.element e d with
  | Except.ok _ => Except.ok true
  | Except.error er =>
    if isNoSuchElementExc er then Except.ok false else Except.error er

/-- `BaseElement.is_visible_now`: `self.element.is_displayed()`, swallowing
`NoSuchElementException` into `False`. -/
def BaseElement.is_visible_now (e : BaseElement) (d : Driver) : Except Err Bool :=
  match BaseElement.element e d with
  | Except.ok w => Except.ok w.displayed
  | Except.error er =>
    if isNoSuchElementExc er then Except.ok false else Except.error er

/-- `BaseElement.wait_for_clickability`: raises `ElementNotClickableError` with
the caller's message (`error_msg or ""`) and a timeout-info string when not
clickable within the timeout, and otherwise returns the resolved element. -/
def BaseElement.wait_for_clickability (e : BaseElement) (d : Driver)
    (timeout : Nat) (error_msg : Option String) : Except Err WebElem :=
  match BaseElement.is_clickable e d timeout with
  | Except.error er => Except.error er
  | Except.ok false =>
    Except.error (Err.elementNotClickable (pyRepr e) d.currentUrl
      [ orEmpty error_msg, "Error raised after timeout=" ++ toString timeout ++ "s." ])
  | Except.ok true => BaseElement.element e d

/-- `BaseElement.text` (property): `self.element.text`. -/
def BaseElement.text (e : BaseElement) (d : Driver) : Except Err String :=
  match BaseElement.element e d with
  | Except.ok w => Except.ok w.text
  | Except.error er => Except.error er

/-- `BaseElement.get_attribute`: `self.element.get_attribute(name)`. -/
def BaseElement.get_attribute (e : BaseElement) (d : Driver) (name : String) :
    Except Err (Option String) :=
  match BaseElement.element e d with
  | Except.ok w => Except.ok (w.get_attribute name)
  | Except.error er => Except.error er

/-- A node whose click is not obstructed. -/
def wPlain : WebElem :=
  { eid := 1, displayed := true, enabled := true, text := "ok", attrs := [],
    clickIntercepted := false }

/-- A node whose click is obstructed. -/
def wIntercept : WebElem :=
  { eid := 2, displayed := true, enabled := false, text := "no", attrs := [],
    clickIntercepted := true }

/-- A second plain node, to distinguish list positions. -/
def wOther : WebElem :=
  { eid := 3, displayed := false, enabled := true, text := "other", attrs := [],
    clickIntercepted := false }

/-- A sample element descriptor. -/
def eX : BaseElement := { locator := "xpath", selector := "sel" }

/-- The element descriptor of the spec's formatting example:
selector `.//div[\x7b\x7d]`. -/
def eDiv : BaseElement := { locator := "xpath", selector := ".//div[\x7b\x7d]" }

/-- A driver whose document matches nothing. -/
def dEmpty : Driver :=
  { dom := fun _ _ => [], currentUrl := "http://page",
    clickableWithin := fun _ _ _ => false, visibleWithin := fun _ _ _ => false }

/-- A driver with one plain matching node, conditions holding at once. -/
def dOne : Driver :=
  { dom := fun _ _ => [wPlain], currentUrl := "http://page",
    clickableWithin := fun _ _ _ => true, visibleWithin := fun _ _ _ => true }

/-- A driver with two matching nodes, conditions holding at once. -/
def dTwo : Driver :=
  { dom := fun _ _ => [wPlain, wOther], currentUrl := "http://page",
    clickableWithin := fun _ _ _ => true, visibleWithin := fun _ _ _ => true }

/-- A driver whose node is present but never becomes clickable. -/
def dNotClickable : Driver :=
  { dom := fun _ _ => [wPlain], currentUrl := "http://page",
    clickableWithin := fun _ _ _ => false, visibleWithin := fun _ _ _ => false }

/-- A driver whose node intercepts clicks. -/
def dIntercept : Driver :=
  { dom := fun _ _ => [wIntercept], currentUrl := "http://page",
    clickableWithin := fun _ _ _ => true, visibleWithin := fun _ _ _ => true }

/-- C1: after a `format(...)` scope exits — normally, by an exception in the
body, or by a failure of the placeholder substitution itself — the selector
equals the exact selector held before the scope was entered. -/
theorem format_restores_selector {α : Type} (e : BaseElement)
    (args : List String) (kwargs : List (String × String))
    (body : BaseElement → Except Err α × BaseElement) :
    ((BaseElement.format e args kwargs body).2).selector = e.selector := by
  unfold BaseElement.format
  cases h : pyFormat e.selector args kwargs <;> simp [h]

/-- C2: `is_clickable`/`is_visible` return `ok false` exactly when the
driver's condition-wait primitive times out, return `ok true` exactly when it
succeeds within the timeout, never raise (the result is always `ok`), and the
default timeout `BASIC_TIMEOUT` is 5 seconds. -/
theorem wait_predicates_timeout_to_false (e : BaseElement) (d : Driver)
    (t : Nat) :
    (BaseElement.is_clickable e d t = Except.ok false ↔
      webDriverWaitUntil (d.clickableWithin e.locator e.selector) t =
        Except.error Err.timeoutException)
    ∧ (BaseElement.is_clickable e d t = Except.ok true ↔
      webDriverWaitUntil (d.clickableWithin e.locator e.selector) t =
        Except.ok ())
    ∧ (BaseElement.is_visible e d t = Except.ok false ↔
      webDriverWaitUntil (d.visibleWithin e.locator e.selector) t =
        Except.error Err.timeoutException)
    ∧ (BaseElement.is_visible e d t = Except.ok true ↔
      webDriverWaitUntil (d.visibleWithin e.locator e.selector) t =
        Except.ok ())
    ∧ (∃ b, BaseElement.is_clickable e d t = Except.ok b)
    ∧ (∃ b, BaseElement.is_visible e d t = Except.ok b)
    ∧ BASIC_TIMEOUT = 5 := by
  unfold BaseElement.is_clickable BaseElement.is_visible webDriverWaitUntil
    BASIC_TIMEOUT
  cases hc : d.clickableWithin e.locator e.selector t <;>
    cases hv : d.visibleWithin e.locator e.selector t <;> simp [hc, hv]

/-- C3: when the selector matches no node in the current document,
`is_present_now` and `is_visible_now` return `false` without raising: the
not-found signal is swallowed into a `false` result. -/
theorem now_predicates_swallow_not_found (e : BaseElement) (d : Driver)
    (h : d.dom e.locator e.selector = []) :
    BaseElement.is_present_now e d = Except.ok false
    ∧ BaseElement.is_visible_now e d = Except.ok false := by
  unfold BaseElement.is_present_now BaseElement.is_visible_now
    BaseElement.element Driver.find_element isNoSuchElementExc
  simp [h]

/-- Witness for C3 at a concrete empty document. -/
theorem now_predicates_swallow_not_found_witness :
    BaseElement.is_present_now eX dEmpty = Except.ok false
    ∧ BaseElement.is_visible_now eX dEmpty = Except.ok false :=
  now_predicates_swallow_not_found eX dEmpty rfl

/-- C5: when the selector matches zero nodes, the `elements` property returns
the empty sequence without error, while the `element` property fails with
`ElementNotFoundError` carrying the descriptor string and the current page
URL. -/
theorem resolve_zero_nodes (e : BaseElement) (d : Driver)
    (h : d.dom e.locator e.selector = []) :
    BaseElement.elements e d = []
    ∧ BaseElement.element e d =
      Except.error (Err.elementNotFound (pyRepr e) d.currentUrl []) := by
  unfold BaseElement.elements BaseElement.element Driver.find_elements
    Driver.find_element isNoSuchElementExc
  simp [h]

/-- Witness for C5 at a concrete empty document. -/
theorem resolve_zero_nodes_witness :
    BaseElement.elements eX dEmpty = []
    ∧ BaseElement.element eX dEmpty =
      Except.error (Err.elementNotFound (pyRepr eX) dEmpty.currentUrl []) :=
  resolve_zero_nodes eX dEmpty rfl

/-- C6: `wait_for_clickability` fails with `ElementNotClickableError` carrying
the caller's message and the timeout value when the element does not become
clickable within the timeout, and returns the resolved element when it does. -/
theorem wait_for_clickability_spec (e : BaseElement) (d : Driver) (t : Nat)
    (msg : Option String) :
    (d.clickableWithin e.locator e.selector t = false →
      BaseElement.wait_for_clickability e d t msg =
        Except.error (Err.elementNotClickable (pyRepr e) d.currentUrl
          [ orEmpty msg, "Error raised after timeout=" ++ toString t ++ "s." ]))
    ∧ (∀ w, d.clickableWithin e.locator e.selector t = true →
      BaseElement.element e d = Except.ok w →
      BaseElement.wait_for_clickability e d t msg = Except.ok w) := by
  constructor
  · intro h
    unfold BaseElement.wait_for_clickability BaseElement.is_clickable
      webDriverWaitUntil
    simp [h]
  · intro w h hw
    unfold BaseElement.wait_for_clickability BaseElement.is_clickable
      webDriverWaitUntil
    simp [h, hw]

/-- Witness for C6: a driver whose node never becomes clickable yields the
error with the caller's message and timeout info, and a driver whose node is
clickable at once yields the resolved node. -/
theorem wait_for_clickability_spec_witness :
    BaseElement.wait_for_clickability eX dNotClickable 5 (some "boom") =
      Except.error (Err.elementNotClickable (pyRepr eX) dNotClickable.currentUrl
        [ orEmpty (some "boom"), "Error raised after timeout=" ++ toString 5 ++ "s." ])
    ∧ BaseElement.wait_for_clickability eX dOne 5 none = Except.ok wPlain :=
  ⟨(wait_for_clickability_spec eX dNotClickable 5 (some "boom")).1 rfl,
   (wait_for_clickability_spec eX dOne 5 none).2 wPlain rfl rfl⟩

/-- C7: `click` resolves one element and clicks it; when the click target is
obstructed it fails with `ElementNotClickableError` carrying the descriptor
string and the current page URL, and otherwise it returns normally. -/
theorem click_intercepted_spec (e : BaseElement) (d : Driver) (w : WebElem)
    (hw : BaseElement.element e d = Except.ok w) :
    (w.clickIntercepted = true →
      BaseElement.click e d =
        Except.error (Err.elementNotClickable (pyRepr e) d.currentUrl []))
    ∧ (w.clickIntercepted = false → BaseElement.click e d = Except.ok ()) := by
  constructor
  · intro h
    unfold BaseElement.click WebElem.click
    simp [hw, h]
  · intro h
    unfold BaseElement.click WebElem.click
    simp [hw, h]

/-- Witness for C7: a driver whose node intercepts the click yields the
`ElementNotClickableError`, a plain node clicks normally. -/
theorem click_intercepted_spec_witness :
    BaseElement.click eX dIntercept =
      Except.error (Err.elementNotClickable (pyRepr eX) dIntercept.currentUrl [])
    ∧ BaseElement.click eX dOne = Except.ok () :=
  ⟨(click_intercepted_spec eX dIntercept wIntercept rfl).1 rfl,
   (click_intercepted_spec eX dOne wPlain rfl).2 rfl⟩

/-- C10: `wait_for_clickability` without a caller message (`error_msg = None`)
raises, on timeout, an `ElementNotClickableError` whose message slot is the
empty string (never `None`) together with the timeout-info string
`Error raised after timeout=<t>s.`. -/
theorem wait_for_clickability_none_msg (e : BaseElement) (d : Driver) (t : Nat)
    (h : d.clickableWithin e.locator e.selector t = false) :
    BaseElement.wait_for_clickability e d t none =
      Except.error (Err.elementNotClickable (pyRepr e) d.currentUrl
        [ "", "Error raised after timeout=" ++ toString t ++ "s." ]) := by
  unfold BaseElement.wait_for_clickability BaseElement.is_clickable
    webDriverWaitUntil
  simp [h, orEmpty]

/-- Witness for C10 at a concrete never-clickable driver and timeout 5. -/
theorem wait_for_clickability_none_msg_witness :
    BaseElement.wait_for_clickability eX dNotClickable 5 none =
      Except.error (Err.elementNotClickable (pyRepr eX) dNotClickable.currentUrl
        [ "", "Error raised after timeout=" ++ toString 5 ++ "s." ]) :=
  wait_for_clickability_none_msg eX dNotClickable 5 rfl

/-- C4 counterexample: on a document with exactly one matching node, the slice
`10:20` lies entirely out of range of the resolved list, yet `__getitem__`
succeeds with the empty list instead of failing with `ElementNotFoundError`
(Python slicing clamps out-of-range slices and raises no `IndexError`). -/
theorem getitem_slice_out_of_range_counterexample :
    (BaseElement.elements eX dOne).length = 1
    ∧ BaseElement.getitem eX dOne (IndexArg.slice (some 10) (some 20) none) =
        Except.ok (GotItem.many []) :=
  ⟨rfl, rfl⟩

/-- C4 amended: indexed access delegates to the resolved element list; for an
integer index `i ≥ count()` it fails with `ElementNotFoundError` annotated
with that index, while slice access (with the non-zero step Python requires)
never fails with `ElementNotFoundError`: out-of-range slices are clamped to a
possibly empty list. -/
theorem getitem_out_of_range (e : BaseElement) (d : Driver) (i : Int)
    (a b st : Option Int) :
    (((BaseElement.elements e d).length : Int) ≤ i →
      BaseElement.getitem e d (IndexArg.int i) =
        Except.error (Err.elementNotFound (pyRepr e) d.currentUrl
          [ "Element with index=" ++ toString i ++ " is not exist." ]))
    ∧ (st ≠ some 0 →
      ∃ ws, BaseElement.getitem e d (IndexArg.slice a b st) =
        Except.ok (GotItem.many ws)) := by
  constructor
  · intro h
    have hn : (0 : Int) ≤ ((BaseElement.elements e d).length : Int) :=
      Int.natCast_nonneg _
    have h1 : ¬ i < 0 := by omega
    have h2 : ¬ ((0 : Int) ≤ i ∧ i < ((BaseElement.elements e d).length : Int)) := by
      omega
    unfold BaseElement.getitem pyGetItem pyListGet indexRepr
    simp [h1, h2]
  · intro h
    have hst : Option.getD st 1 ≠ 0 := by
      cases st with
      | none => simp
      | some v => simpa using h
    unfold BaseElement.getitem pyGetItem pyListSlice pySliceIndices
    simp [hst]

/-- Witness for C4 amended: index 5 on a one-node document fails with the
annotated `ElementNotFoundError`, and an out-of-range slice yields a list. -/
theorem getitem_out_of_range_witness :
    BaseElement.getitem eX dOne (IndexArg.int 5) =
      Except.error (Err.elementNotFound (pyRepr eX) dOne.currentUrl
        [ "Element with index=" ++ toString (5 : Int) ++ " is not exist." ])
    ∧ ∃ ws, BaseElement.getitem eX dOne (IndexArg.slice (some 3) (some 7) none) =
        Except.ok (GotItem.many ws) :=
  ⟨(getitem_out_of_range eX dOne 5 (some 3) (some 7) none).1 (by decide),
   (getitem_out_of_range eX dOne 5 (some 3) (some 7) none).2 (by decide)⟩

/-- C8: formatting the selector `.//div[\x7b\x7d]` with the argument `3` runs
the scope body with the active selector `.//div[3]`, and after scope exit the
selector reverts to the template `.//div[\x7b\x7d]`. -/
theorem format_substitution_example :
    pyFormat eDiv.selector [ "3" ] [] = Except.ok ".//div[3]"
    ∧ ∀ (body : BaseElement → Except Err String × BaseElement),
      (BaseElement.format eDiv [ "3" ] [] body).1 =
        (body { eDiv with selector := ".//div[3]" }).1
      ∧ ((BaseElement.format eDiv [ "3" ] [] body).2).selector =
        ".//div[\x7b\x7d]" := by
  refine ⟨rfl, fun body => ⟨?_, ?_⟩⟩ <;> rfl

/-- C9: for a negative integer index `i`, access counts from the end of the
resolved list — it succeeds with the node at position `count() + i` when
`-count() ≤ i < 0`, and fails with `ElementNotFoundError` annotated with that
index when `i < -count()`. -/
theorem getitem_negative_index (e : BaseElement) (d : Driver) (i : Int) :
    (∀ w, i < 0 →
      -(((BaseElement.elements e d).length : Int)) ≤ i →
      (BaseElement.elements e d)[(i + ((BaseElement.elements e d).length : Int)).toNat]? =
        some w →
      BaseElement.getitem e d (IndexArg.int i) = Except.ok (GotItem.one w))
    ∧ (i < -(((BaseElement.elements e d).length : Int)) →
      BaseElement.getitem e d (IndexArg.int i) =
        Except.error (Err.elementNotFound (pyRepr e) d.currentUrl
          [ "Element with index=" ++ toString i ++ " is not exist." ])) := by
  constructor
  · intro w h1 h2 hw
    have hca : (0 : Int) ≤ i + ((BaseElement.elements e d).length : Int) := by
      omega
    have hcb : i + ((BaseElement.elements e d).length : Int) <
        ((BaseElement.elements e d).length : Int) := by omega
    unfold BaseElement.getitem pyGetItem pyListGet
    simp [h1, hca, hcb, hw]
  · intro h
    have hn : (0 : Int) ≤ ((BaseElement.elements e d).length : Int) :=
      Int.natCast_nonneg _
    have h1 : i < 0 := by omega
    have hca : ¬ (0 : Int) ≤ i + ((BaseElement.elements e d).length : Int) := by
      omega
    unfold BaseElement.getitem pyGetItem pyListGet indexRepr
    simp [h1, hca]

/-- Witness for C9 on a two-node document: index `-1` yields the last node,
index `-3` fails with the annotated `ElementNotFoundError`. -/
theorem getitem_negative_index_witness :
    BaseElement.getitem eX dTwo (IndexArg.int (-1)) =
      Except.ok (GotItem.one wOther)
    ∧ BaseElement.getitem eX dTwo (IndexArg.int (-3)) =
      Except.error (Err.elementNotFound (pyRepr eX) dTwo.currentUrl
        [ "Element with index=" ++ toString (-3 : Int) ++ " is not exist." ]) :=
  ⟨(getitem_negative_index eX dTwo (-1)).1 wOther (by decide) (by decide) rfl,
   (getitem_negative_index eX dTwo (-3)).2 (by decide)⟩
